import Mathlib

/-!
Verification of the barter-trade core (`core.py`): immutable `Item`,
`User` and `Offer` values with pure set-algebra operations. Python
frozensets of items are embedded as `Finset Item`; every method that
returns a new instance becomes a pure Lean function on the record types.
-/

/-- An immutable tradeable item: `name` and `description` strings.
Equality is value equality of the two fields (Python frozen dataclass). -/
structure Item where
  name : String
  description : String := ""
deriving DecidableEq

/-- A user: a `username` and a frozen set of held items. -/
structure User where
  username : String
  items : Finset Item := ∅
deriving DecidableEq

/-- `User.with_item_added`: new `User` with the item union-ed in
(`replace(self, items=self.items.union({item}))`). -/
def User.with_item_added (u : User) (item : Item) : User :=
  { u with items := u.items ∪ {item} }

/-- `User.with_items_added`: new `User` with a set of items union-ed in. -/
def User.with_items_added (u : User) (items : Finset Item) : User :=
  { u with items := u.items ∪ items }

/-- `User.with_item_removed`: new `User` with the item set-differenced out
(`replace(self, items=self.items.difference({item}))`). -/
def User.with_item_removed (u : User) (item : Item) : User :=
  { u with items := u.items \ {item} }

/-- `User.with_items_removed`: new `User` with a set of items differenced out. -/
def User.with_items_removed (u : User) (items : Finset Item) : User :=
  { u with items := u.items \ items }

/-- Offer status enumeration (`Enum('OfferStatus', 'PENDING ACCEPTED DECLINED')`). -/
inductive OfferStatus where
  | PENDING
  | ACCEPTED
  | DECLINED
deriving DecidableEq

/-- An immutable offer between two users: `user_a` offers `offered_items`
and requests `requested_items` from `user_b`. -/
structure Offer where
  user_a : User
  user_b : User
  offered_items : Finset Item
  requested_items : Finset Item
  status : OfferStatus := OfferStatus.PENDING
deriving DecidableEq

/-- `Offer.accept`: if the offer is pending and both parties own the
relevant items, perform the swap and return the updated offer together
with the two updated users; otherwise return the original triple. -/
def Offer.accept (o : Offer) : Offer × User × User :=
  if o.status ≠ OfferStatus.PENDING then
    (o, o.user_a, o.user_b)
  else if ¬ o.offered_items ⊆ o.user_a.items then
    (o, o.user_a, o.user_b)
  else if ¬ o.requested_items ⊆ o.user_b.items then
    (o, o.user_a, o.user_b)
  else
    let updated_user_a :=
      (o.user_a.with_items_removed o.offered_items).with_items_added o.requested_items
    let updated_user_b :=
      (o.user_b.with_items_removed o.requested_items).with_items_added o.offered_items
    let updated_offer :=
      { o with status := OfferStatus.ACCEPTED,
               user_a := updated_user_a, user_b := updated_user_b }
    (updated_offer, updated_user_a, updated_user_b)

/-- `Offer.decline`: decline a pending offer; a non-pending offer is
returned unchanged. -/
def Offer.decline (o : Offer) : Offer :=
  if o.status = OfferStatus.PENDING then
    { o with status := OfferStatus.DECLINED }
  else
    o

/-- One step of the offer lifecycle: applying `accept` (keeping the
returned offer) or `decline` to an offer. -/
inductive OfferStep : Offer → Offer → Prop where
  | accept (o : Offer) : OfferStep o o.accept.1
  | decline (o : Offer) : OfferStep o o.decline

/-- Concrete example item (mirrors the demo script's data, abbreviated). -/
def itemB : Item := { name := "B", description := "book" }

/-- Concrete example item. -/
def itemG : Item := { name := "G", description := "guitar" }

/-- Concrete example item. -/
def itemL : Item := { name := "L", description := "lamp" }

/-- Concrete example item. -/
def itemP : Item := { name := "P", description := "pen" }

/-- Concrete example user holding `{itemB, itemP}`. -/
def alice : User := { username := "alice", items := {itemB, itemP} }

/-- Concrete example user holding `{itemG, itemL}`. -/
def bob : User := { username := "bob", items := {itemG, itemL} }

/-- Concrete pending offer: alice offers `{itemB, itemP}` for `{itemG, itemL}`. -/
def offerEx : Offer :=
  { user_a := alice, user_b := bob,
    offered_items := {itemB, itemP}, requested_items := {itemG, itemL} }

/-- Concrete accepted offer, for exercising the terminal paths. -/
def acceptedOffer : Offer := { offerEx with status := OfferStatus.ACCEPTED }

/-- Concrete declined offer, for exercising the terminal paths. -/
def declinedOffer : Offer := { offerEx with status := OfferStatus.DECLINED }

/-- Concrete pending offer failing the ownership check: alice does not
hold `itemG`, yet it is among the offered items. -/
def badOffer : Offer :=
  { user_a := alice, user_b := bob,
    offered_items := {itemG}, requested_items := {itemL} }

/-- Concrete pending offer whose offered and requested sets overlap on
`itemB`, which both users hold. -/
def overlapOffer : Offer :=
  { user_a := alice, user_b := { bob with items := {itemB, itemG} },
    offered_items := {itemB}, requested_items := {itemB, itemG} }

/-- C1: for a PENDING offer with both ownership checks satisfied,
`accept` returns the swapped users — `updated_user_a.items =
(user_a.items \ offered_items) ∪ requested_items`, symmetrically for
`user_b` — and an offer with status ACCEPTED. -/
theorem accept_swap (o : Offer)
    (hp : o.status = OfferStatus.PENDING)
    (ha : o.offered_items ⊆ o.user_a.items)
    (hb : o.requested_items ⊆ o.user_b.items) :
    o.accept.2.1.items = (o.user_a.items \ o.offered_items) ∪ o.requested_items ∧
    o.accept.2.2.items = (o.user_b.items \ o.requested_items) ∪ o.offered_items ∧
    o.accept.1.status = OfferStatus.ACCEPTED := by
  simp [Offer.accept, hp, ha, hb, User.with_items_removed, User.with_items_added]

/-- Witness for C1 at the demo offer. -/
theorem accept_swap_witness :
    offerEx.status = OfferStatus.PENDING ∧
    offerEx.offered_items ⊆ offerEx.user_a.items ∧
    offerEx.requested_items ⊆ offerEx.user_b.items ∧
    (offerEx.accept.2.1.items =
        (offerEx.user_a.items \ offerEx.offered_items) ∪ offerEx.requested_items ∧
      offerEx.accept.2.2.items =
        (offerEx.user_b.items \ offerEx.requested_items) ∪ offerEx.offered_items ∧
      offerEx.accept.1.status = OfferStatus.ACCEPTED) :=
  ⟨by decide, by decide, by decide,
    accept_swap offerEx (by decide) (by decide) (by decide)⟩

/-- C2: `accept` is structurally atomic — it returns either the original
triple entirely unchanged, or a triple where both users carry the full
swap, the offer is ACCEPTED, and the offer's user fields are exactly the
two returned users; never a partially applied trade. -/
theorem accept_atomic (o : Offer) :
    o.accept = (o, o.user_a, o.user_b) ∨
    (o.accept.1.status = OfferStatus.ACCEPTED ∧
      o.accept.2.1.items = (o.user_a.items \ o.offered_items) ∪ o.requested_items ∧
      o.accept.2.2.items = (o.user_b.items \ o.requested_items) ∪ o.offered_items ∧
      o.accept.1.user_a = o.accept.2.1 ∧
      o.accept.1.user_b = o.accept.2.2) := by
  by_cases hp : o.status = OfferStatus.PENDING
  · by_cases ha : o.offered_items ⊆ o.user_a.items
    · by_cases hb : o.requested_items ⊆ o.user_b.items
      · right
        simp [Offer.accept, hp, ha, hb, User.with_items_removed, User.with_items_added]
      · left
        simp [Offer.accept, hp, ha, hb]
    · left
      simp [Offer.accept, hp, ha]
  · left
    simp [Offer.accept, hp]

/-- C3: for a PENDING offer failing either ownership check, `accept`
returns the original offer (still PENDING) and the original users,
raising no error. -/
theorem accept_ownership_fail (o : Offer)
    (hp : o.status = OfferStatus.PENDING)
    (h : ¬ o.offered_items ⊆ o.user_a.items ∨ ¬ o.requested_items ⊆ o.user_b.items) :
    o.accept = (o, o.user_a, o.user_b) ∧ o.accept.1.status = OfferStatus.PENDING := by
  rcases h with ha | hb
  · constructor
    · simp [Offer.accept, hp, ha]
    · simp [Offer.accept, hp, ha]
  · by_cases ha : o.offered_items ⊆ o.user_a.items
    · constructor
      · simp [Offer.accept, hp, ha, hb]
      · simp [Offer.accept, hp, ha, hb]
    · constructor
      · simp [Offer.accept, hp, ha]
      · simp [Offer.accept, hp, ha]

/-- Witness for C3 at an offer whose offered item alice does not hold. -/
theorem accept_ownership_fail_witness :
    badOffer.status = OfferStatus.PENDING ∧
    (¬ badOffer.offered_items ⊆ badOffer.user_a.items ∨
      ¬ badOffer.requested_items ⊆ badOffer.user_b.items) ∧
    (badOffer.accept = (badOffer, badOffer.user_a, badOffer.user_b) ∧
      badOffer.accept.1.status = OfferStatus.PENDING) :=
  ⟨by decide, by decide,
    accept_ownership_fail badOffer (by decide) (Or.inl (by decide))⟩

/-- C4: `accept` on a non-PENDING offer returns exactly
`(offer, offer.user_a, offer.user_b)`, with no field changed. -/
theorem accept_terminal (o : Offer) (h : o.status ≠ OfferStatus.PENDING) :
    o.accept = (o, o.user_a, o.user_b) := by
  simp [Offer.accept, h]

/-- Witness for C4 at an already-accepted offer. -/
theorem accept_terminal_witness :
    acceptedOffer.status ≠ OfferStatus.PENDING ∧
    acceptedOffer.accept = (acceptedOffer, acceptedOffer.user_a, acceptedOffer.user_b) :=
  ⟨by decide, accept_terminal acceptedOffer (by decide)⟩

/-- C5: `decline` on a PENDING offer yields a DECLINED offer with all
other fields (users and item sets) unchanged; on a non-PENDING offer it
returns the offer itself. -/
theorem decline_spec (o : Offer) :
    (o.status = OfferStatus.PENDING →
      o.decline.status = OfferStatus.DECLINED ∧
      o.decline.user_a = o.user_a ∧ o.decline.user_b = o.user_b ∧
      o.decline.offered_items = o.offered_items ∧
      o.decline.requested_items = o.requested_items) ∧
    (o.status ≠ OfferStatus.PENDING → o.decline = o) := by
  constructor
  · intro hp
    simp [Offer.decline, hp]
  · intro hp
    simp [Offer.decline, hp]

/-- Witness for C5: a pending offer is declined with other fields kept,
and a declined offer is left untouched. -/
theorem decline_spec_witness :
    (offerEx.decline.status = OfferStatus.DECLINED ∧
      offerEx.decline.user_a = offerEx.user_a ∧
      offerEx.decline.user_b = offerEx.user_b ∧
      offerEx.decline.offered_items = offerEx.offered_items ∧
      offerEx.decline.requested_items = offerEx.requested_items) ∧
    declinedOffer.decline = declinedOffer :=
  ⟨(decline_spec offerEx).1 (by decide), (decline_spec declinedOffer).2 (by decide)⟩

/-- C6: under the step relation generated by `accept` and `decline`,
every transition either keeps the status or goes from PENDING to
ACCEPTED or DECLINED; in particular a non-PENDING (terminal) status is
never left. -/
theorem step_transitions (o o' : Offer) (hs : OfferStep o o') :
    (o'.status = o.status ∨
      (o.status = OfferStatus.PENDING ∧
        (o'.status = OfferStatus.ACCEPTED ∨ o'.status = OfferStatus.DECLINED))) ∧
    (o.status ≠ OfferStatus.PENDING → o'.status = o.status) := by
  cases hs with
  | accept =>
    by_cases hp : o.status = OfferStatus.PENDING
    · refine ⟨?_, fun hn => absurd hp hn⟩
      by_cases ha : o.offered_items ⊆ o.user_a.items
      · by_cases hb : o.requested_items ⊆ o.user_b.items
        · right
          exact ⟨hp, Or.inl (by simp [Offer.accept, hp, ha, hb])⟩
        · left
          simp [Offer.accept, hp, ha, hb]
      · left
        simp [Offer.accept, hp, ha]
    · exact ⟨Or.inl (by simp [Offer.accept, hp]), fun _ => by simp [Offer.accept, hp]⟩
  | decline =>
    by_cases hp : o.status = OfferStatus.PENDING
    · exact ⟨Or.inr ⟨hp, Or.inr (by simp [Offer.decline, hp])⟩, fun hn => absurd hp hn⟩
    · exact ⟨Or.inl (by simp [Offer.decline, hp]), fun _ => by simp [Offer.decline, hp]⟩

/-- Witness for C6: stepping an already-accepted offer by `accept`
leaves its status unchanged. -/
theorem step_transitions_witness :
    acceptedOffer.accept.1.status = acceptedOffer.status :=
  (step_transitions acceptedOffer acceptedOffer.accept.1
      (OfferStep.accept acceptedOffer)).2 (by decide)

/-- C7: if a PENDING offer satisfying the ownership precondition has an
item in both `offered_items` and `requested_items`, that item is still
in `updated_user_a.items` after `accept` (removed then re-added). -/
theorem accept_overlap (o : Offer) (x : Item)
    (hp : o.status = OfferStatus.PENDING)
    (ha : o.offered_items ⊆ o.user_a.items)
    (hb : o.requested_items ⊆ o.user_b.items)
    (hxo : x ∈ o.offered_items) (hxr : x ∈ o.requested_items) :
    x ∈ o.accept.2.1.items := by
  have h := (accept_swap o hp ha hb).1
  rw [h, Finset.mem_union]
  exact Or.inr hxr

/-- Witness for C7: `itemB` is offered and requested at once and stays
with alice after acceptance. -/
theorem accept_overlap_witness :
    overlapOffer.status = OfferStatus.PENDING ∧
    overlapOffer.offered_items ⊆ overlapOffer.user_a.items ∧
    overlapOffer.requested_items ⊆ overlapOffer.user_b.items ∧
    itemB ∈ overlapOffer.offered_items ∧
    itemB ∈ overlapOffer.requested_items ∧
    itemB ∈ overlapOffer.accept.2.1.items :=
  ⟨by decide, by decide, by decide, by decide, by decide,
    accept_overlap overlapOffer itemB (by decide) (by decide) (by decide)
      (by decide) (by decide)⟩

/-- C8: removing an absent item, or adding an already-present item,
returns a User equal to the original; both operations are total. -/
theorem set_op_total (u : User) (x : Item) :
    (x ∉ u.items → u.with_item_removed x = u) ∧
    (x ∈ u.items → u.with_item_added x = u) := by
  constructor
  · intro hx
    have h : u.items \ {x} = u.items := by
      ext a
      simp only [Finset.mem_sdiff, Finset.mem_singleton]
      exact ⟨fun h => h.1, fun h => ⟨h, fun he => hx (he ▸ h)⟩⟩
    show { u with items := u.items \ {x} } = u
    rw [h]
  · intro hx
    have h : u.items ∪ {x} = u.items := by
      ext a
      simp only [Finset.mem_union, Finset.mem_singleton]
      exact ⟨fun h => h.elim id (fun he => he ▸ hx), Or.inl⟩
    show { u with items := u.items ∪ {x} } = u
    rw [h]

/-- Witness for C8: alice does not hold `itemG` and removal is a no-op;
alice holds `itemB` and re-adding it is a no-op. -/
theorem set_op_total_witness :
    (itemG ∉ alice.items ∧ alice.with_item_removed itemG = alice) ∧
    (itemB ∈ alice.items ∧ alice.with_item_added itemB = alice) :=
  ⟨⟨by decide, (set_op_total alice itemG).1 (by decide)⟩,
    ⟨by decide, (set_op_total alice itemB).2 (by decide)⟩⟩

/-- C9: two Items with equal `name` and equal `description` are equal
values, interchangeable for set membership, and adding both to a User
yields the same single-element extension as adding one. -/
theorem item_interchangeable (i j : Item) (s : Finset Item) (u : User)
    (hn : i.name = j.name) (hd : i.description = j.description) :
    i = j ∧ (i ∈ s ↔ j ∈ s) ∧
    (u.with_item_added i).with_item_added j = u.with_item_added i := by
  have hij : i = j := by
    cases i
    cases j
    simp_all
  subst hij
  refine ⟨rfl, Iff.rfl, ?_⟩
  show { u with items := (u.items ∪ {i}) ∪ {i} } = { u with items := u.items ∪ {i} }
  rw [Finset.union_assoc, Finset.union_self]

/-- Witness for C9 at two separately constructed but identical items. -/
theorem item_interchangeable_witness :
    Item.mk "B" "book" = itemB ∧
    (Item.mk "B" "book" ∈ alice.items ↔ itemB ∈ alice.items) ∧
    (alice.with_item_added (Item.mk "B" "book")).with_item_added itemB =
      alice.with_item_added (Item.mk "B" "book") :=
  item_interchangeable (Item.mk "B" "book") itemB alice.items alice
    (by decide) (by decide)

/-- C10: on every return path of `accept`, the returned triple is
internally consistent: the returned offer's `user_a`/`user_b` are the
two returned users and its item-set fields are those of the original. -/
theorem accept_consistent (o : Offer) :
    o.accept.1.user_a = o.accept.2.1 ∧ o.accept.1.user_b = o.accept.2.2 ∧
    o.accept.1.offered_items = o.offered_items ∧
    o.accept.1.requested_items = o.requested_items := by
  by_cases hp : o.status = OfferStatus.PENDING
  · by_cases ha : o.offered_items ⊆ o.user_a.items
    · by_cases hb : o.requested_items ⊆ o.user_b.items
      · simp [Offer.accept, hp, ha, hb]
      · simp [Offer.accept, hp, ha, hb]
    · simp [Offer.accept, hp, ha]
  · simp [Offer.accept, hp]
